import Mathlib

/-!
Verification of the remind-me backend's notification-dispatch and sync
subsystem, as a shallow embedding of the Go source into Lean.

Conventions of the embedding:
* database tables are lists of rows (`List Reminder`, `List Device`,
  `List SyncEvent`); GORM's soft-delete scope (`deleted_at IS NULL`) is
  carried explicitly as a `deletedAt : Option Int` field checked by every
  query, and GORM's `Updates`/`Save`/`Delete` become `List.map` row
  transformations;
* `time.Time` values are modelled as `Int`, UUIDs as `Nat`; operations
  that read the wall clock (`time.Now()`) take the time as an explicit
  `now` argument;
* Go's `*T` pointers that encode optionality become `Option`;
* the outcome of an outbound push (the provider's HTTP reply) is a
  parameter of the model, so theorems quantify over delivery outcomes.
-/

namespace RemindMe

/-- Reminder lifecycle status, from `models.ReminderStatus`
(`active`, `completed`, `snoozed`, `dismissed`). -/
inductive ReminderStatus where
  | active
  | completed
  | snoozed
  | dismissed
deriving DecidableEq, Inhabited

/-- Recurrence frequency, from `models.Frequency`. -/
inductive Frequency where
  | hourly
  | daily
  | weekly
  | monthly
  | yearly
deriving DecidableEq

/-- Recurrence rule, from `models.RecurrenceRule` (JSONB column). -/
structure RecurrenceRule where
  frequency : Frequency
  interval : Int
  daysOfWeek : List Int
  dayOfMonth : Option Int
  monthOfYear : Option Int
  endAfterOccurrences : Option Int
  endDate : Option String
deriving DecidableEq

/-- A row of the `reminders` table, from `models.Reminder`.  Nullable
columns (Go pointer fields) are `Option`; `deletedAt` is GORM's
soft-delete column. -/
structure Reminder where
  id : Nat
  userId : Nat
  listId : Option Nat
  title : String
  notes : Option String
  priority : Int
  dueAt : Option Int
  allDay : Option Bool
  recurrenceRule : Option RecurrenceRule
  recurrenceEnd : Option Int
  status : ReminderStatus
  completedAt : Option Int
  snoozedUntil : Option Int
  snoozeCount : Int
  isAlarm : Bool
  soundId : Option String
  notificationSentAt : Option Int
  localId : Option String
  version : Int
  lastModifiedBy : Option Nat
  deletedAt : Option Int
deriving DecidableEq, Inhabited

/-- A row of the `users` table, from `models.User` (the fields the
premium checks read). -/
structure User where
  id : Nat
  isPremium : Bool
  premiumUntil : Option Int
deriving DecidableEq

/-- `User.HasActivePremium`: premium flag set, and `premiumUntil` either
absent (lifetime) or still in the future. -/
def User.hasActivePremium (u : User) (now : Int) : Bool :=
  if !u.isPremium then false
  else
    match u.premiumUntil with
    | none => true
    | some t => decide (now < t)

/-- A row of the `devices` table, from `models.Device` (with the
`device_identifier` column of migration 008 used by
`DeviceRepository.Upsert`). -/
structure Device where
  id : Nat
  userId : Nat
  platform : String
  pushToken : String
  deviceIdentifier : String
  deviceName : String
  appVersion : String
  osVersion : String
  lastSeenAt : Int
  deletedAt : Option Int
deriving DecidableEq

/-- A row of the `sync_events` table, from `models.SyncEvent` (the
columns the sync queries read). -/
structure SyncEvent where
  userId : Nat
  entityType : String
  entityId : Nat
  action : String
  deviceId : Option Nat
  createdAt : Int
deriving DecidableEq

/-! ## ReminderRepository (src/internal/repository/reminder_repository.go) -/

/-- The row predicate of `ReminderRepository.FindDueForNotification`:
`due_at IS NOT NULL AND status = 'active' AND due_at <= now AND
notification_sent_at IS NULL`, under GORM's soft-delete scope. -/
def dueForNotificationB (now : Int) (r : Reminder) : Bool :=
  decide (r.deletedAt = none) &&
  (match r.dueAt with
   | some d => decide (d ≤ now)
   | none => false) &&
  decide (r.status = .active) &&
  decide (r.notificationSentAt = none)

/-- `ReminderRepository.FindDueForNotification now`. -/
def FindDueForNotification (now : Int) (db : List Reminder) : List Reminder :=
  db.filter (dueForNotificationB now)

/-- `ReminderRepository.MarkNotificationSent id`: sets
`notification_sent_at = now` on the matching (non-deleted) rows. -/
def MarkNotificationSent (id : Nat) (now : Int) (db : List Reminder) : List Reminder :=
  db.map fun r =>
    if r.id = id ∧ r.deletedAt = none then { r with notificationSentAt := some now } else r

/-- `ReminderRepository.ClearNotificationSent id`. -/
def ClearNotificationSent (id : Nat) (db : List Reminder) : List Reminder :=
  db.map fun r =>
    if r.id = id ∧ r.deletedAt = none then { r with notificationSentAt := none } else r

/-- `ReminderRepository.Snooze id until deviceID`: a map-based batch
`Updates` setting `status = 'active'`, `due_at = until`,
`snoozed_until = NULL`, `snooze_count = snooze_count + 1`,
`notification_sent_at = NULL`, and `last_modified_by` when a device is
given.  Being a batch update with a map, GORM does not run the
`Reminder.BeforeUpdate` hook, so `version` is not touched. -/
def RepoSnooze (id : Nat) (untilT : Int) (deviceId : Option Nat)
    (db : List Reminder) : List Reminder :=
  db.map fun r =>
    if r.id = id ∧ r.deletedAt = none then
      { r with
        status := .active
        dueAt := some untilT
        snoozedUntil := none
        snoozeCount := r.snoozeCount + 1
        notificationSentAt := none
        lastModifiedBy := match deviceId with | some d => some d | none => r.lastModifiedBy }
    else r

/-- `ReminderRepository.Complete id deviceID`: batch `Updates` setting
`status = 'completed'` and `completed_at = now`; the `BeforeUpdate`
hook does not run, so `version` is not touched. -/
def RepoComplete (id : Nat) (deviceId : Option Nat) (now : Int)
    (db : List Reminder) : List Reminder :=
  db.map fun r =>
    if r.id = id ∧ r.deletedAt = none then
      { r with
        status := .completed
        completedAt := some now
        lastModifiedBy := match deviceId with | some d => some d | none => r.lastModifiedBy }
    else r

/-- `ReminderRepository.Dismiss id deviceID`: batch `Updates` setting
`status = 'dismissed'`; the `BeforeUpdate` hook does not run, so
`version` is not touched. -/
def RepoDismiss (id : Nat) (deviceId : Option Nat)
    (db : List Reminder) : List Reminder :=
  db.map fun r =>
    if r.id = id ∧ r.deletedAt = none then
      { r with
        status := .dismissed
        lastModifiedBy := match deviceId with | some d => some d | none => r.lastModifiedBy }
    else r

/-- `Reminder.BeforeUpdate` (models): increments `version`.  GORM runs
it when saving a struct that carries its primary key, which is the
`ReminderRepository.Update` (`db.Save`) path. -/
def beforeUpdateHook (r : Reminder) : Reminder :=
  { r with version := r.version + 1 }

/-- `ReminderRepository.Update` = `db.Save(reminder)`: runs the
`BeforeUpdate` hook on the struct and writes all of its columns over
the row with the same primary key.  Returns the saved struct together
with the new table contents. -/
def RepoUpdate (r : Reminder) (db : List Reminder) : Reminder × List Reminder :=
  let saved := beforeUpdateHook r
  (saved, db.map fun x => if x.id = r.id ∧ x.deletedAt = none then saved else x)

/-- `ReminderRepository.FindByIDAndUser`. -/
def FindByIDAndUser (id userId : Nat) (db : List Reminder) : Option Reminder :=
  db.find? fun r =>
    decide (r.id = id) && decide (r.userId = userId) && decide (r.deletedAt = none)

/-- `ReminderRepository.FindByLocalID`. -/
def FindByLocalID (userId : Nat) (localId : String) (db : List Reminder) : Option Reminder :=
  db.find? fun r =>
    decide (r.userId = userId) && decide (r.localId = some localId) &&
      decide (r.deletedAt = none)

/-! ## NotificationJob.ProcessDueReminders (jobs) -/

/-- The per-reminder loop of `NotificationJob.ProcessDueReminders`: for
each due reminder, call the dispatcher's `SendToUser` (its outcome is
the `sendOk` parameter; a send is attempted for every listed reminder),
and on success mark the reminder notified and count it.  Returns the
ids dispatched, the resulting table and the sent count. -/
def processLoop (sendOk : Reminder → Bool) (now : Int) :
    List Reminder → List Reminder → List Nat × List Reminder × Nat
  | [], db => ([], db, 0)
  | r :: rest, db =>
    if sendOk r then
      let res := processLoop sendOk now rest (MarkNotificationSent r.id now db)
      (r.id :: res.1, res.2.1, res.2.2 + 1)
    else
      let res := processLoop sendOk now rest db
      (r.id :: res.1, res.2.1, res.2.2)

/-- `NotificationJob.ProcessDueReminders`: query
`FindDueForNotification now`, then run the dispatch-and-mark loop over
the result. -/
def ProcessDueReminders (sendOk : Reminder → Bool) (now : Int)
    (db : List Reminder) : List Nat × List Reminder × Nat :=
  processLoop sendOk now (FindDueForNotification now db) db


/-! ## Scan-loop lemmas -/

/-- Pointwise description of the marking performed by a scan run: rows
whose id is among `ids` (and that are not soft-deleted) get
`notification_sent_at = now`. -/
def markIf (ids : List Nat) (now : Int) (r : Reminder) : Reminder :=
  if r.id ∈ ids ∧ r.deletedAt = none then { r with notificationSentAt := some now } else r

theorem markIf_nil (now : Int) (r : Reminder) : markIf [] now r = r := by
  simp [markIf]

theorem markNotificationSent_eq_map (i : Nat) (now : Int) (db : List Reminder) :
    MarkNotificationSent i now db = db.map (markIf [i] now) := by
  unfold MarkNotificationSent markIf
  exact List.map_congr_left fun r _ => by simp

theorem markIf_markIf (i : Nat) (ids : List Nat) (now : Int) (r : Reminder) :
    markIf ids now (markIf [i] now r) = markIf (i :: ids) now r := by
  unfold markIf
  by_cases hdel : r.deletedAt = none
  · by_cases hi : r.id = i
    · by_cases hids : r.id ∈ ids <;> simp [hdel, hi, hids]
    · by_cases hids : r.id ∈ ids <;> simp [hdel, hi, hids]
  · simp [hdel]

theorem processLoop_fst (s : Reminder → Bool) (now : Int) :
    ∀ (l db : List Reminder), (processLoop s now l db).1 = l.map (·.id)
  | [], _ => rfl
  | r :: rest, db => by
    by_cases hs : s r <;>
      simp [processLoop, hs, processLoop_fst s now rest]

theorem processLoop_db (s : Reminder → Bool) (now : Int) :
    ∀ (l db : List Reminder),
      (processLoop s now l db).2.1 = db.map (markIf ((l.filter s).map (·.id)) now)
  | [], db => by
    simp only [processLoop, List.filter_nil, List.map_nil]
    exact ((List.map_congr_left fun r _ => markIf_nil now r).trans (List.map_id db)).symm
  | r :: rest, db => by
    by_cases hs : s r
    · simp only [processLoop, hs, if_true]
      rw [processLoop_db s now rest, markNotificationSent_eq_map, List.map_map,
        List.filter_cons_of_pos hs]
      exact List.map_congr_left fun x _ => markIf_markIf r.id _ now x
    · simp only [processLoop, hs, Bool.false_eq_true, if_false]
      rw [processLoop_db s now rest, List.filter_cons_of_neg (by simp [hs])]

theorem markIf_id (ids : List Nat) (now : Int) (r : Reminder) :
    (markIf ids now r).id = r.id := by
  unfold markIf; split <;> rfl

theorem markIf_deletedAt (ids : List Nat) (now : Int) (r : Reminder) :
    (markIf ids now r).deletedAt = r.deletedAt := by
  unfold markIf; split <;> rfl

theorem dueForNotificationB_true {now : Int} {r : Reminder}
    (h : dueForNotificationB now r = true) :
    r.deletedAt = none ∧ r.status = .active ∧ r.notificationSentAt = none := by
  simp only [dueForNotificationB, Bool.and_eq_true, decide_eq_true_eq] at h
  exact ⟨h.1.1.1, h.1.2, h.2⟩

/-- Claim C1: running the due-reminder scan twice in succession with no
intervening change results in exactly one dispatch for a reminder whose
dispatch succeeded in the first run: the first run dispatches it once,
marks it, and so the second run (at any later instant, under any
delivery outcomes) does not return it from `FindDueForNotification` and
performs zero dispatches for it. -/
theorem c1_scan_at_most_once (sendOk sendOk2 : Reminder → Bool) (now1 now2 : Int)
    (db : List Reminder) (r : Reminder)
    (hnodup : (db.map (·.id)).Nodup)
    (hdue : r ∈ FindDueForNotification now1 db)
    (hsend : sendOk r = true) :
    (ProcessDueReminders sendOk now1 db).1.count r.id = 1 ∧
    (ProcessDueReminders sendOk2 now2
        (ProcessDueReminders sendOk now1 db).2.1).1.count r.id = 0 := by
  have hfst1 : (ProcessDueReminders sendOk now1 db).1
      = (FindDueForNotification now1 db).map (·.id) :=
    processLoop_fst sendOk now1 _ db
  have hdb1 : (ProcessDueReminders sendOk now1 db).2.1
      = db.map (markIf (((FindDueForNotification now1 db).filter sendOk).map (·.id)) now1) :=
    processLoop_db sendOk now1 _ db
  set S := ((FindDueForNotification now1 db).filter sendOk).map (·.id) with hS
  have hrS : r.id ∈ S := List.mem_map_of_mem _ (List.mem_filter.mpr ⟨hdue, hsend⟩)
  constructor
  · rw [hfst1]
    have hsub : List.Sublist ((FindDueForNotification now1 db).map (·.id)) (db.map (·.id)) :=
      (List.filter_sublist db).map _
    exact List.count_eq_one_of_mem (hnodup.sublist hsub) (List.mem_map_of_mem _ hdue)
  · have hfst2 : (ProcessDueReminders sendOk2 now2 (ProcessDueReminders sendOk now1 db).2.1).1
        = (FindDueForNotification now2 (ProcessDueReminders sendOk now1 db).2.1).map (·.id) :=
      processLoop_fst sendOk2 now2 _ _
    rw [hfst2, List.count_eq_zero]
    intro hmem
    obtain ⟨y, hy, hyid⟩ := List.mem_map.mp hmem
    obtain ⟨hydb, hyp⟩ := List.mem_filter.mp hy
    rw [hdb1] at hydb
    obtain ⟨x, hx, hxy⟩ := List.mem_map.mp hydb
    obtain ⟨hdel, _, hnsent⟩ := dueForNotificationB_true hyp
    by_cases hcond : x.id ∈ S ∧ x.deletedAt = none
    · have : y.notificationSentAt = some now1 := by
        rw [← hxy]; unfold markIf; rw [if_pos hcond]
      rw [this] at hnsent; exact Option.some_ne_none _ hnsent
    · have hyx : y = x := by rw [← hxy]; unfold markIf; rw [if_neg hcond]
      apply hcond
      subst hyx
      exact ⟨hyid ▸ hrS, hdel⟩

/-- Concrete reminder used to witness the scan theorem. -/
def c1Reminder : Reminder :=
  { id := 1, userId := 7, listId := none, title := "milk", notes := none,
    priority := 2, dueAt := some 10, allDay := none, recurrenceRule := none,
    recurrenceEnd := none, status := .active, completedAt := none,
    snoozedUntil := none, snoozeCount := 0, isAlarm := false, soundId := none,
    notificationSentAt := none, localId := none, version := 1,
    lastModifiedBy := none, deletedAt := none }

/-- Witness for C1 at a concrete one-reminder table. -/
theorem c1_scan_at_most_once_witness :
    ([c1Reminder].map (·.id)).Nodup ∧
    c1Reminder ∈ FindDueForNotification 10 [c1Reminder] ∧
    (ProcessDueReminders (fun _ => true) 10 [c1Reminder]).1.count c1Reminder.id = 1 ∧
    (ProcessDueReminders (fun _ => true) 20
        (ProcessDueReminders (fun _ => true) 10 [c1Reminder]).2.1).1.count c1Reminder.id = 0 :=
  ⟨by decide, by decide,
    c1_scan_at_most_once (fun _ => true) (fun _ => true) 10 20 [c1Reminder] c1Reminder
      (by decide) (by decide) rfl⟩


/-! ## ReminderService (service layer) and the sync-event log -/

/-- Service-layer errors, from `pkg/errors` (the codes the modelled
paths can return). -/
inductive ServiceErr where
  | validation
  | userNotFound
  | premiumRequired
  | notFound
deriving DecidableEq

/-- `isAdvancedRecurrence` (service): monthly/yearly/hourly, custom
intervals, or a strict subset of week days require premium. -/
def isAdvancedRecurrence : Option RecurrenceRule → Bool
  | none => false
  | some rule =>
    if rule.frequency = .monthly ∨ rule.frequency = .yearly ∨ rule.frequency = .hourly then
      true
    else if rule.interval > 1 then true
    else if 0 < rule.daysOfWeek.length ∧ rule.daysOfWeek.length < 7 then true
    else false

/-- `SyncRepository.RecordReminderChange`: appends one immutable row to
the sync-event log (`models.CreateSyncEvent` + insert; the JSON payload
snapshot is opaque to every claim and is not carried). -/
def RecordReminderChange (userId : Nat) (r : Reminder) (action : String)
    (deviceId : Option Nat) (now : Int) (log : List SyncEvent) : List SyncEvent :=
  log ++ [{ userId := userId, entityType := "reminder", entityId := r.id,
            action := action, deviceId := deviceId, createdAt := now }]

/-- `dto.UpdateReminderRequest`: every field optional; absent fields are
left unchanged by `ReminderService.Update`. -/
structure UpdateReminderRequest where
  title : Option String
  notes : Option String
  priority : Option Int
  dueAt : Option Int
  allDay : Option Bool
  recurrenceRule : Option RecurrenceRule
  recurrenceEnd : Option Int
  status : Option ReminderStatus
deriving DecidableEq

/-- The field-by-field "Apply updates" block of `ReminderService.Update`:
each present request field overwrites the reminder's field; nothing else
is touched (in particular `notificationSentAt` and `version` are not). -/
def applyUpdates (req : UpdateReminderRequest) (r : Reminder) : Reminder :=
  { r with
    title := req.title.getD r.title
    notes := match req.notes with | some n => some n | none => r.notes
    priority := req.priority.getD r.priority
    dueAt := match req.dueAt with | some d => some d | none => r.dueAt
    allDay := match req.allDay with | some b => some b | none => r.allDay
    recurrenceRule := match req.recurrenceRule with | some x => some x | none => r.recurrenceRule
    recurrenceEnd := match req.recurrenceEnd with | some x => some x | none => r.recurrenceEnd
    status := req.status.getD r.status }

/-- Result of a successful `ReminderService.Update`: the DTO source
struct, the reminders table, and the sync-event log. -/
structure UpdateOut where
  result : Reminder
  db : List Reminder
  log : List SyncEvent
deriving DecidableEq, Inhabited

/-- The tail of `ReminderService.Update` after its guards: apply the
request fields, stamp `lastModifiedBy`, save through the repository
(running the `BeforeUpdate` hook), and record an `update` sync event
built from the saved struct. -/
def serviceUpdateApply (userId : Nat) (req : UpdateReminderRequest)
    (deviceId : Option Nat) (now : Int) (reminder : Reminder)
    (db : List Reminder) (log : List SyncEvent) : Except ServiceErr UpdateOut :=
  let updated := { applyUpdates req reminder with lastModifiedBy := deviceId }
  let saveRes := RepoUpdate updated db
  .ok { result := saveRes.1, db := saveRes.2,
        log := RecordReminderChange userId saveRes.1 "update" deviceId now log }

/-- `ReminderService.Update`: look the reminder up by id and user, gate
advanced recurrence behind premium, then apply-and-save.  Note that the
apply block never clears `notificationSentAt`, even when the request
carries a new `dueAt`. -/
def ServiceUpdate (userId reminderId : Nat) (req : UpdateReminderRequest)
    (deviceId : Option Nat) (users : List User) (now : Int)
    (db : List Reminder) (log : List SyncEvent) : Except ServiceErr UpdateOut :=
  match FindByIDAndUser reminderId userId db with
  | none => .error .notFound
  | some reminder =>
    match req.recurrenceRule with
    | some _ =>
      (match users.find? (fun u => decide (u.id = userId)) with
       | none => .error .userNotFound
       | some user =>
         if !user.hasActivePremium now && isAdvancedRecurrence req.recurrenceRule then
           .error .premiumRequired
         else serviceUpdateApply userId req deviceId now reminder db log)
    | none => serviceUpdateApply userId req deviceId now reminder db log


/-! ## Lookup and inversion lemmas for the service layer -/

theorem findByIDAndUser_spec {id userId : Nat} {db : List Reminder} {r : Reminder}
    (h : FindByIDAndUser id userId db = some r) :
    r ∈ db ∧ r.id = id ∧ r.userId = userId ∧ r.deletedAt = none := by
  unfold FindByIDAndUser at h
  have hmem := List.mem_of_find?_eq_some h
  have hp := List.find?_some h
  simp only [Bool.and_eq_true, decide_eq_true_eq] at hp
  exact ⟨hmem, hp.1.1, hp.1.2, hp.2⟩

theorem serviceUpdateApply_out {userId : Nat} {req : UpdateReminderRequest}
    {deviceId : Option Nat} {now : Int} {reminder : Reminder}
    {db : List Reminder} {log : List SyncEvent} {out : UpdateOut}
    (h : serviceUpdateApply userId req deviceId now reminder db log = .ok out) :
    out.result = beforeUpdateHook { applyUpdates req reminder with lastModifiedBy := deviceId } ∧
    out.db = db.map (fun x =>
      if x.id = reminder.id ∧ x.deletedAt = none then
        beforeUpdateHook { applyUpdates req reminder with lastModifiedBy := deviceId }
      else x) := by
  unfold serviceUpdateApply RepoUpdate at h
  injection h with h
  subst h
  exact ⟨rfl, rfl⟩

instance {e a : Type} [DecidableEq e] [DecidableEq a] : DecidableEq (Except e a) := fun x y =>
  match x, y with
  | .ok u, .ok v =>
    if h : u = v then isTrue (h ▸ rfl) else isFalse (fun he => h (Except.ok.inj he))
  | .error u, .error v =>
    if h : u = v then isTrue (h ▸ rfl) else isFalse (fun he => h (Except.error.inj he))
  | .ok _, .error _ => isFalse (fun he => Except.noConfusion he)
  | .error _, .ok _ => isFalse (fun he => Except.noConfusion he)

theorem serviceUpdate_ok_apply {userId reminderId : Nat} {req : UpdateReminderRequest}
    {deviceId : Option Nat} {users : List User} {now : Int}
    {db : List Reminder} {log : List SyncEvent} {out : UpdateOut} {reminder : Reminder}
    (hfind : FindByIDAndUser reminderId userId db = some reminder)
    (h : ServiceUpdate userId reminderId req deviceId users now db log = .ok out) :
    serviceUpdateApply userId req deviceId now reminder db log = .ok out := by
  cases hrr : req.recurrenceRule with
  | none =>
    simp only [ServiceUpdate, hfind, hrr] at h
    exact h
  | some rule =>
    simp only [ServiceUpdate, hfind, hrr] at h
    cases hu : users.find? (fun u => decide (u.id = userId)) with
    | none =>
      simp only [hu] at h
      exact absurd h (by simp)
    | some user =>
      simp only [hu] at h
      by_cases hprem : (!user.hasActivePremium now && isAdvancedRecurrence (some rule)) = true
      · rw [if_pos hprem] at h
        exact absurd h (by simp)
      · rw [if_neg hprem] at h
        exact h

/-- Claim C2 (amended): `ReminderRepository.Snooze` does clear
`notificationSentAt` while changing `dueAt`, but `ReminderService.Update`
never changes `notificationSentAt` — in particular a request that sets a
new `dueAt` leaves the previous `notificationSentAt` in place instead of
clearing it. -/
theorem c2_amended :
    (∀ (id : Nat) (untilT : Int) (dev : Option Nat) (db : List Reminder),
      ∀ y ∈ RepoSnooze id untilT dev db, y.id = id → y.deletedAt = none →
        y.notificationSentAt = none ∧ y.dueAt = some untilT) ∧
    (∀ (userId reminderId : Nat) (req : UpdateReminderRequest) (dev : Option Nat)
        (users : List User) (now : Int) (db : List Reminder) (log : List SyncEvent)
        (out : UpdateOut),
      ServiceUpdate userId reminderId req dev users now db log = .ok out →
        ∀ y ∈ out.db, ∃ x ∈ db, y.id = x.id ∧ y.notificationSentAt = x.notificationSentAt) := by
  constructor
  · intro id untilT dev db y hy hid hdel
    unfold RepoSnooze at hy
    obtain ⟨x, hx, hxy⟩ := List.mem_map.mp hy
    by_cases hc : x.id = id ∧ x.deletedAt = none
    · rw [← hxy, if_pos hc]
      exact ⟨rfl, rfl⟩
    · rw [← hxy, if_neg hc] at hid hdel
      exact absurd ⟨hid, hdel⟩ hc
  · intro userId reminderId req dev users now db log out h y hy
    cases hfind : FindByIDAndUser reminderId userId db with
    | none =>
      unfold ServiceUpdate at h
      rw [hfind] at h
      simp at h
    | some reminder =>
      obtain ⟨hmem, _, _, _⟩ := findByIDAndUser_spec hfind
      obtain ⟨_, hdb⟩ := serviceUpdateApply_out (serviceUpdate_ok_apply hfind h)
      rw [hdb] at hy
      obtain ⟨x, hx, hxy⟩ := List.mem_map.mp hy
      by_cases hc : x.id = reminder.id ∧ x.deletedAt = none
      · rw [← hxy, if_pos hc]
        exact ⟨reminder, hmem, rfl, rfl⟩
      · rw [← hxy, if_neg hc]
        exact ⟨x, hx, rfl, rfl⟩

/-- Concrete already-notified reminder used against claim C2. -/
def c2Reminder : Reminder :=
  { id := 2, userId := 7, listId := none, title := "pay rent", notes := none,
    priority := 2, dueAt := some 10, allDay := none, recurrenceRule := none,
    recurrenceEnd := none, status := .active, completedAt := none,
    snoozedUntil := none, snoozeCount := 0, isAlarm := false, soundId := none,
    notificationSentAt := some 5, localId := none, version := 1,
    lastModifiedBy := none, deletedAt := none }

/-- Concrete update request that sets a new `dueAt`. -/
def c2Req : UpdateReminderRequest :=
  { title := none, notes := none, priority := none, dueAt := some 100,
    allDay := none, recurrenceRule := none, recurrenceEnd := none, status := none }

/-- Counterexample to claim C2 as stated: updating `c2Reminder` (already
notified, `notificationSentAt = some 5`) with a request that sets
`dueAt := 100` succeeds and leaves `notificationSentAt = some 5` — not
`none` — both in the returned reminder and in the stored row. -/
theorem c2_counterexample :
    (ServiceUpdate 7 2 c2Req none [] 0 [c2Reminder] []).toOption.map
        (fun out => (out.result.dueAt, out.result.notificationSentAt,
          out.db.map Reminder.notificationSentAt))
      = some (some 100, some 5, [some 5]) ∧ (some 5 : Option Int) ≠ none := by
  exact ⟨by decide, by decide⟩

/-- The row produced by snoozing `c2Reminder`. -/
def c2Snoozed : Reminder := (RepoSnooze 2 50 none [c2Reminder]).getD 0 c2Reminder

/-- The outcome of the concrete C2 update call. -/
def c2Out : UpdateOut :=
  (ServiceUpdate 7 2 c2Req none [] 0 [c2Reminder] []).toOption.getD default

/-- Witness for the amended C2 at concrete inputs. -/
theorem c2_amended_witness :
    (c2Snoozed.notificationSentAt = none ∧ c2Snoozed.dueAt = some 50) ∧
    c2Out.result.notificationSentAt = c2Reminder.notificationSentAt := by
  constructor
  · exact c2_amended.1 2 50 none [c2Reminder] c2Snoozed (by decide) (by decide) (by decide)
  · obtain ⟨x, hx, _, hns⟩ :=
      c2_amended.2 7 2 c2Req none [] 0 [c2Reminder] [] c2Out (by decide) c2Out.result (by decide)
    rw [hns, List.mem_singleton.mp hx]


/-- Concrete reminder (version 1) used against claim C7. -/
def c7Reminder : Reminder :=
  { id := 3, userId := 7, listId := none, title := "water plants", notes := none,
    priority := 2, dueAt := some 10, allDay := none, recurrenceRule := none,
    recurrenceEnd := none, status := .active, completedAt := none,
    snoozedUntil := none, snoozeCount := 0, isAlarm := false, soundId := none,
    notificationSentAt := none, localId := none, version := 1,
    lastModifiedBy := none, deletedAt := none }

/-- Counterexample to claim C7 as stated: snoozing `c7Reminder` (version
1) leaves the stored version at 1, not at `version + 1 = 2` — the
map-based batch update bypasses the `BeforeUpdate` hook. -/
theorem c7_counterexample :
    ¬ ((RepoSnooze 3 50 none [c7Reminder]).map Reminder.version
        = [c7Reminder.version + 1]) := by decide

/-- Claim C7 (amended): only the Save-based `ReminderRepository.Update`
path (used by `ReminderService.Update`) increments `version` by exactly
one; `Snooze`, `Complete` and `Dismiss` are map-based batch updates that
bypass the `BeforeUpdate` hook and leave every row's `version`
unchanged. -/
theorem c7_amended :
    (∀ (id : Nat) (untilT : Int) (dev : Option Nat) (db : List Reminder),
      (RepoSnooze id untilT dev db).map Reminder.version = db.map Reminder.version) ∧
    (∀ (id : Nat) (dev : Option Nat) (now : Int) (db : List Reminder),
      (RepoComplete id dev now db).map Reminder.version = db.map Reminder.version) ∧
    (∀ (id : Nat) (dev : Option Nat) (db : List Reminder),
      (RepoDismiss id dev db).map Reminder.version = db.map Reminder.version) ∧
    (∀ (userId reminderId : Nat) (req : UpdateReminderRequest) (dev : Option Nat)
        (users : List User) (now : Int) (db : List Reminder) (log : List SyncEvent)
        (out : UpdateOut) (x : Reminder),
      ServiceUpdate userId reminderId req dev users now db log = .ok out →
      FindByIDAndUser reminderId userId db = some x →
        out.result.version = x.version + 1 ∧
        ∀ y ∈ out.db, y.id = reminderId → y.deletedAt = none →
          y.version = x.version + 1) := by
  refine ⟨?_, ?_, ?_, ?_⟩
  · intro id untilT dev db
    unfold RepoSnooze
    rw [List.map_map]
    refine List.map_congr_left fun r _ => ?_
    simp only [Function.comp_apply]
    split <;> rfl
  · intro id dev now db
    unfold RepoComplete
    rw [List.map_map]
    refine List.map_congr_left fun r _ => ?_
    simp only [Function.comp_apply]
    split <;> rfl
  · intro id dev db
    unfold RepoDismiss
    rw [List.map_map]
    refine List.map_congr_left fun r _ => ?_
    simp only [Function.comp_apply]
    split <;> rfl
  · intro userId reminderId req dev users now db log out x h hfind
    obtain ⟨hmem, hxid, _, hxdel⟩ := findByIDAndUser_spec hfind
    obtain ⟨hres, hdb⟩ := serviceUpdateApply_out (serviceUpdate_ok_apply hfind h)
    constructor
    · rw [hres]; rfl
    · intro y hy hyid hydel
      rw [hdb] at hy
      obtain ⟨z, hz, hzy⟩ := List.mem_map.mp hy
      by_cases hc : z.id = x.id ∧ z.deletedAt = none
      · rw [← hzy, if_pos hc]; rfl
      · rw [← hzy, if_neg hc] at hyid hydel
        exact absurd ⟨hxid ▸ hyid, hydel⟩ hc

/-- Request with no field changes, used for the C7 update witness. -/
def c7Req : UpdateReminderRequest :=
  { title := none, notes := none, priority := none, dueAt := none,
    allDay := none, recurrenceRule := none, recurrenceEnd := none, status := none }

/-- The outcome of the concrete C7 update call. -/
def c7Out : UpdateOut :=
  (ServiceUpdate 7 3 c7Req none [] 0 [c7Reminder] []).toOption.getD default

/-- Witness for the amended C7 at concrete inputs. -/
theorem c7_amended_witness :
    (RepoSnooze 3 50 none [c7Reminder]).map Reminder.version
        = [c7Reminder].map Reminder.version ∧
    c7Out.result.version = c7Reminder.version + 1 :=
  ⟨c7_amended.1 3 50 none [c7Reminder],
   (c7_amended.2.2.2 7 3 c7Req none [] 0 [c7Reminder] [] c7Out c7Reminder
      (by decide) (by decide)).1⟩


/-! ## SyncRepository.GetChangesSince (src/unnamed/part_000) -/

/-- Ascending `created_at` order used by the sync queries
(`ORDER BY created_at ASC`). -/
def evLe (a b : SyncEvent) : Prop := a.createdAt ≤ b.createdAt

instance : DecidableRel evLe := fun a b => inferInstanceAs (Decidable (a.createdAt ≤ b.createdAt))

instance : IsTotal SyncEvent evLe := ⟨fun a b => Int.le_total a.createdAt b.createdAt⟩

instance : IsTrans SyncEvent evLe := ⟨fun _ _ _ h h2 => le_trans h h2⟩

/-- The row set of the `GetChangesSince` query:
`user_id = ? AND created_at > ?`. -/
def userEventsSince (userId : Nat) (since : Int) (db : List SyncEvent) : List SyncEvent :=
  db.filter fun e => decide (e.userId = userId) && decide (since < e.createdAt)

/-- The paging tail of `GetChangesSince`: `hasMore := len(events) > limit;
if hasMore { events = events[:limit] }`. -/
def getChangesPage (events : List SyncEvent) (limit : Nat) : List SyncEvent × Bool :=
  if limit < events.length then (events.take limit, true) else (events, false)

/-- `SyncRepository.GetChangesSince`: fetch the matching events in
ascending `created_at` order capped at `limit + 1` (one extra row to
compute `hasMore` without a count query), then truncate. -/
def GetChangesSince (userId : Nat) (since : Int) (limit : Nat)
    (db : List SyncEvent) : List SyncEvent × Bool :=
  getChangesPage
    ((List.insertionSort evLe (userEventsSince userId since db)).take (limit + 1)) limit

/-- Claim C3: with exactly `k + 1` matching events, `GetChangesSince`
returns the `k` earliest in ascending order and `hasMore = true`; with
exactly `k`, it returns all of them in ascending order and
`hasMore = false`. -/
theorem c3_getChangesSince (u : Nat) (since : Int) (k : Nat) (db : List SyncEvent)
    (hk : 1 ≤ k) :
    ((userEventsSince u since db).length = k + 1 →
      GetChangesSince u since k db
          = ((List.insertionSort evLe (userEventsSince u since db)).take k, true) ∧
      List.Sorted evLe (GetChangesSince u since k db).1 ∧
      (GetChangesSince u since k db).1.length = k) ∧
    ((userEventsSince u since db).length = k →
      GetChangesSince u since k db
          = (List.insertionSort evLe (userEventsSince u since db), false) ∧
      List.Sorted evLe (GetChangesSince u since k db).1 ∧
      List.Perm (GetChangesSince u since k db).1 (userEventsSince u since db)) := by
  have _ := hk
  have hslen : (List.insertionSort evLe (userEventsSince u since db)).length
      = (userEventsSince u since db).length :=
    (List.perm_insertionSort evLe (userEventsSince u since db)).length_eq
  have hsorted := List.sorted_insertionSort evLe (userEventsSince u since db)
  constructor
  · intro h
    have hev : (List.insertionSort evLe (userEventsSince u since db)).take (k + 1)
        = List.insertionSort evLe (userEventsSince u since db) :=
      List.take_of_length_le (by rw [hslen, h])
    have hres : GetChangesSince u since k db
        = ((List.insertionSort evLe (userEventsSince u since db)).take k, true) := by
      unfold GetChangesSince
      rw [hev]
      unfold getChangesPage
      rw [if_pos (by rw [hslen, h]; exact Nat.lt_succ_self k)]
    refine ⟨hres, ?_, ?_⟩
    · rw [hres]
      exact hsorted.sublist (List.take_sublist k _)
    · rw [hres]
      simp only [List.length_take, hslen, h]
      exact Nat.min_eq_left (Nat.le_succ k)
  · intro h
    have hev : (List.insertionSort evLe (userEventsSince u since db)).take (k + 1)
        = List.insertionSort evLe (userEventsSince u since db) :=
      List.take_of_length_le (by rw [hslen, h]; exact Nat.le_succ k)
    have hres : GetChangesSince u since k db
        = (List.insertionSort evLe (userEventsSince u since db), false) := by
      unfold GetChangesSince
      rw [hev]
      unfold getChangesPage
      rw [if_neg (by rw [hslen, h]; exact Nat.lt_irrefl k)]
    refine ⟨hres, ?_, ?_⟩
    · rw [hres]
      exact hsorted
    · rw [hres]
      exact List.perm_insertionSort evLe (userEventsSince u since db)

/-- Concrete sync event at a given time, for the C3 witness. -/
def c3Ev (t : Int) : SyncEvent :=
  { userId := 7, entityType := "reminder", entityId := 1, action := "update",
    deviceId := none, createdAt := t }

/-- Witness for C3: a two-event log with `limit = 1` pages with
`hasMore = true`; a one-event log returns everything with
`hasMore = false`. -/
theorem c3_getChangesSince_witness :
    GetChangesSince 7 0 1 [c3Ev 2, c3Ev 1]
        = ((List.insertionSort evLe (userEventsSince 7 0 [c3Ev 2, c3Ev 1])).take 1, true) ∧
    GetChangesSince 7 0 1 [c3Ev 1]
        = (List.insertionSort evLe (userEventsSince 7 0 [c3Ev 1]), false) :=
  ⟨((c3_getChangesSince 7 0 1 [c3Ev 2, c3Ev 1] (by decide)).1 (by decide)).1,
   ((c3_getChangesSince 7 0 1 [c3Ev 1] (by decide)).2 (by decide)).1⟩


/-! ## DeviceRepository queries and the notification Dispatcher -/

/-- The anonymous `struct{Platform; PushToken}` rows returned by the
push-token queries. -/
structure PushTarget where
  platform : String
  pushToken : String
deriving DecidableEq

/-- `DeviceRepository.GetAllPushTokens`:
`SELECT DISTINCT push_token, platform WHERE user_id = ?` (soft-delete
scoped); `List.dedup` renders the `DISTINCT`. -/
def GetAllPushTokens (userId : Nat) (db : List Device) : List PushTarget :=
  ((db.filter fun d => decide (d.userId = userId) && decide (d.deletedAt = none)).map
    fun d => { platform := d.platform, pushToken := d.pushToken }).dedup

/-- `DeviceRepository.GetPushTokensExcluding`:
`SELECT DISTINCT push_token, platform WHERE user_id = ? AND id != ?`.
The exclusion is by device row id only — a different row carrying the
same push token still matches. -/
def GetPushTokensExcluding (userId excludeDeviceId : Nat) (db : List Device) : List PushTarget :=
  ((db.filter fun d =>
      decide (d.userId = userId) && decide (d.id ≠ excludeDeviceId) &&
        decide (d.deletedAt = none)).map
    fun d => { platform := d.platform, pushToken := d.pushToken }).dedup

/-- The `if excludeDeviceID != nil` target-resolution step shared by
`SendToUserExcluding` and `SendCrossDeviceAction`. -/
def resolveTokens (userId : Nat) (excludeDeviceId : Option Nat) (db : List Device) :
    List PushTarget :=
  match excludeDeviceId with
  | some ex => GetPushTokensExcluding userId ex db
  | none => GetAllPushTokens userId db

/-- A silent (data-only) push handed to a platform client, with the
platform it is routed to. -/
structure DataSend where
  platform : String
  pushToken : String
  data : List (String × String)
deriving DecidableEq

/-- The dispatcher's platform switch for a data-only send: `ios` goes to
the APNs client, `android` to the FCM client, any other recorded
platform is a no-op. -/
def platformSend (t : PushTarget) (data : List (String × String)) : Option DataSend :=
  if t.platform = "ios" then
    some { platform := t.platform, pushToken := t.pushToken, data := data }
  else if t.platform = "android" then
    some { platform := t.platform, pushToken := t.pushToken, data := data }
  else none

/-- The data map of `Dispatcher.SendCrossDeviceAction`. -/
def crossDeviceData (reminderId : Nat) (action : String) : List (String × String) :=
  [("type", "cross_device_action"), ("action", action), ("reminder_id", toString reminderId)]

/-- `Dispatcher.SendCrossDeviceAction`: resolve the user's tokens with
the originating device excluded (by row id), then send the silent
cross-device payload to each; returns the performed sends. -/
def SendCrossDeviceAction (userId : Nat) (excludeDeviceId : Option Nat)
    (reminderId : Nat) (action : String) (db : List Device) : List DataSend :=
  (resolveTokens userId excludeDeviceId db).filterMap
    fun t => platformSend t (crossDeviceData reminderId action)

/-- `Dispatcher.SendSyncNotification`: sends the silent
`type = sync` ping.  The Go function resolves its targets with
`GetAllPushTokens` and never reads its `excludeDevice` parameter. -/
def SendSyncNotification (userId : Nat) (excludeDevice : Option Nat)
    (db : List Device) : List DataSend :=
  (GetAllPushTokens userId db).filterMap fun t => platformSend t [("type", "sync")]

theorem platformSend_some {t : PushTarget} {data : List (String × String)} {s : DataSend}
    (h : platformSend t data = some s) : s.pushToken = t.pushToken ∧ s.data = data := by
  unfold platformSend at h
  split_ifs at h
  · injection h with h
    rw [← h]
    exact ⟨rfl, rfl⟩
  · injection h with h
    rw [← h]
    exact ⟨rfl, rfl⟩

theorem mem_getPushTokensExcluding {userId ex : Nat} {db : List Device} {t : PushTarget}
    (h : t ∈ GetPushTokensExcluding userId ex db) :
    ∃ d ∈ db, d.userId = userId ∧ d.id ≠ ex ∧ d.deletedAt = none ∧
      t.platform = d.platform ∧ t.pushToken = d.pushToken := by
  unfold GetPushTokensExcluding at h
  rw [List.mem_dedup] at h
  obtain ⟨d, hd, ht⟩ := List.mem_map.mp h
  rw [List.mem_filter] at hd
  obtain ⟨hmem, hp⟩ := hd
  simp only [Bool.and_eq_true, decide_eq_true_eq] at hp
  exact ⟨d, hmem, hp.1.1, hp.1.2, hp.2, by rw [← ht], by rw [← ht]⟩

/-- Devices used against claim C4: the excluded device and a stale row
with a different id but the same push token. -/
def c4DevA : Device :=
  { id := 1, userId := 7, platform := "ios", pushToken := "t",
    deviceIdentifier := "idA", deviceName := "phone", appVersion := "1",
    osVersion := "17", lastSeenAt := 0, deletedAt := none }

/-- Stale duplicate-token row for the C4 counterexample. -/
def c4DevStale : Device :=
  { id := 2, userId := 7, platform := "ios", pushToken := "t",
    deviceIdentifier := "idB", deviceName := "phone-old", appVersion := "1",
    osVersion := "17", lastSeenAt := 0, deletedAt := none }

/-- Counterexample to claim C4 as stated: excluding device 1 (token
`"t"`) still sends the cross-device action to token `"t"`, because the
stale row with id 2 carries the same token and the exclusion is by row
id only. -/
theorem c4_counterexample :
    c4DevA.id = 1 ∧ c4DevA.pushToken = "t" ∧
    "t" ∈ (SendCrossDeviceAction 7 (some 1) 99 "complete"
        [c4DevA, c4DevStale]).map DataSend.pushToken := by decide

/-- Claim C4 (amended): `SendCrossDeviceAction` excludes the originating
device by row id; its push token is therefore only guaranteed not to be
targeted when no other (non-deleted) row of the user carries the same
token. -/
theorem c4_amended (userId ex reminderId : Nat) (action : String)
    (db : List Device) (tok : String)
    (hother : ∀ d ∈ db, d.userId = userId → d.deletedAt = none → d.id ≠ ex →
      d.pushToken ≠ tok) :
    tok ∉ (SendCrossDeviceAction userId (some ex) reminderId action db).map
      DataSend.pushToken := by
  intro hmem
  obtain ⟨s, hs, hstok⟩ := List.mem_map.mp hmem
  unfold SendCrossDeviceAction resolveTokens at hs
  obtain ⟨t, ht, hsend⟩ := List.mem_filterMap.mp hs
  obtain ⟨d, hd, hdu, hdid, hddel, _, hdtok⟩ := mem_getPushTokensExcluding ht
  obtain ⟨hsp, _⟩ := platformSend_some hsend
  exact hother d hd hdu hddel hdid (by rw [← hdtok, ← hsp, hstok])

/-- Devices for the amended-C4 witness: distinct tokens. -/
def c4WA : Device :=
  { id := 1, userId := 7, platform := "ios", pushToken := "ta",
    deviceIdentifier := "wa", deviceName := "a", appVersion := "1",
    osVersion := "17", lastSeenAt := 0, deletedAt := none }

/-- Second witness device with its own token. -/
def c4WB : Device :=
  { id := 2, userId := 7, platform := "android", pushToken := "tb",
    deviceIdentifier := "wb", deviceName := "b", appVersion := "1",
    osVersion := "14", lastSeenAt := 0, deletedAt := none }

/-- Witness for the amended C4: with no duplicate-token row, the
excluded device's token is not targeted. -/
theorem c4_amended_witness :
    "ta" ∉ (SendCrossDeviceAction 7 (some 1) 99 "complete" [c4WA, c4WB]).map
      DataSend.pushToken :=
  c4_amended 7 1 99 "complete" [c4WA, c4WB] "ta" (by decide)

/-- Devices at the C5 failing input: device 1 is the one that should be
excluded. -/
def c5DevA : Device :=
  { id := 1, userId := 7, platform := "ios", pushToken := "ta",
    deviceIdentifier := "ca", deviceName := "a", appVersion := "1",
    osVersion := "17", lastSeenAt := 0, deletedAt := none }

/-- The other device of the C5 user. -/
def c5DevB : Device :=
  { id := 2, userId := 7, platform := "android", pushToken := "tb",
    deviceIdentifier := "cb", deviceName := "b", appVersion := "1",
    osVersion := "14", lastSeenAt := 0, deletedAt := none }

/-- Claim C5 fails on the code: `SendSyncNotification` never reads its
`excludeDevice` parameter (it resolves targets with `GetAllPushTokens`),
so the call with `excludeDevice = some 1` behaves exactly like the call
with no exclusion and the excluded device's token `"ta"` is among the
targets of the silent `type = sync` ping. -/
theorem c5_sendSyncNotification_ignores_exclude :
    (∀ (userId : Nat) (ex : Option Nat) (db : List Device),
      SendSyncNotification userId ex db = SendSyncNotification userId none db) ∧
    "ta" ∈ (SendSyncNotification 7 (some 1) [c5DevA, c5DevB]).map DataSend.pushToken := by
  constructor
  · intro userId ex db
    rfl
  · decide


/-! ## Dispatcher.SendToUser fan-out (C6) -/

/-- One device's send inside the `SendToUser` fan-out: route by
platform (`ios` / `android`, anything else is a no-op) and report that
device's delivery outcome (`none` = success, `some e` = error), which
is the `send` parameter of the model. -/
def perDeviceSend (send : String → String → Option String) (t : PushTarget) :
    Option String :=
  if t.platform = "ios" then send "ios" t.pushToken
  else if t.platform = "android" then send "android" t.pushToken
  else none

/-- `Dispatcher.SendToUser`: resolve all of the user's push targets,
launch one send per target, wait for all of them, and return the first
collected error (if any).  The first component is the list of targets a
send was attempted for — always every resolved target, regardless of
other targets' failures. -/
def SendToUser (userId : Nat) (send : String → String → Option String)
    (db : List Device) : List PushTarget × Option String :=
  (GetAllPushTokens userId db,
   (((GetAllPushTokens userId db).map (perDeviceSend send)).filterMap id).head?)

/-- Claim C6: if device X's send fails, every other resolved device
(such as Y) is still attempted, the call completes all sends, and the
returned error is non-`none`; in general the call returns no error
exactly when every per-device send succeeded. -/
theorem c6_fanout_isolation (userId : Nat) (send : String → String → Option String)
    (db : List Device) (tx ty : PushTarget)
    (hx : tx ∈ GetAllPushTokens userId db)
    (hfail : perDeviceSend send tx ≠ none)
    (hy : ty ∈ GetAllPushTokens userId db) :
    ty ∈ (SendToUser userId send db).1 ∧
    (SendToUser userId send db).2.isSome = true ∧
    ∀ (send2 : String → String → Option String),
      ((SendToUser userId send2 db).2 = none ↔
        ∀ t ∈ GetAllPushTokens userId db, perDeviceSend send2 t = none) := by
  refine ⟨hy, ?_, ?_⟩
  · obtain ⟨e, he⟩ := Option.ne_none_iff_exists'.mp hfail
    have hmem : e ∈ ((GetAllPushTokens userId db).map (perDeviceSend send)).filterMap id :=
      List.mem_filterMap.mpr ⟨some e, he ▸ List.mem_map_of_mem (perDeviceSend send) hx, rfl⟩
    show (((GetAllPushTokens userId db).map (perDeviceSend send)).filterMap id).head?.isSome
      = true
    cases herr : ((GetAllPushTokens userId db).map (perDeviceSend send)).filterMap id with
    | nil => rw [herr] at hmem; exact absurd hmem (List.not_mem_nil e)
    | cons a l => rfl
  · intro send2
    show (((GetAllPushTokens userId db).map (perDeviceSend send2)).filterMap id).head? = none
      ↔ _
    rw [List.head?_eq_none_iff, List.filterMap_eq_nil_iff]
    constructor
    · intro h t ht
      exact h (perDeviceSend send2 t) (List.mem_map_of_mem (perDeviceSend send2) ht)
    · intro h o ho
      obtain ⟨t, ht, hto⟩ := List.mem_map.mp ho
      rw [← hto]
      exact h t ht

/-- Per-token delivery outcome for the C6 witness: the `tx` token
fails, everything else succeeds. -/
def c6send : String → String → Option String :=
  fun _ tok => if tok = "tx" then some "provider 500" else none

/-- Failing iOS device for the C6 witness. -/
def c6X : Device :=
  { id := 1, userId := 7, platform := "ios", pushToken := "tx",
    deviceIdentifier := "x", deviceName := "x", appVersion := "1",
    osVersion := "17", lastSeenAt := 0, deletedAt := none }

/-- Succeeding Android device for the C6 witness. -/
def c6Y : Device :=
  { id := 2, userId := 7, platform := "android", pushToken := "ty",
    deviceIdentifier := "y", deviceName := "y", appVersion := "1",
    osVersion := "14", lastSeenAt := 0, deletedAt := none }

/-- Witness for C6 at a two-device user with one failing send. -/
theorem c6_fanout_isolation_witness :
    (⟨"android", "ty"⟩ : PushTarget) ∈ (SendToUser 7 c6send [c6X, c6Y]).1 ∧
    (SendToUser 7 c6send [c6X, c6Y]).2.isSome = true :=
  ⟨(c6_fanout_isolation 7 c6send [c6X, c6Y] ⟨"ios", "tx"⟩ ⟨"android", "ty"⟩
      (by decide) (by decide) (by decide)).1,
   (c6_fanout_isolation 7 c6send [c6X, c6Y] ⟨"ios", "tx"⟩ ⟨"android", "ty"⟩
      (by decide) (by decide) (by decide)).2.1⟩

/-! ## Platform push clients (APNs / FCM data sends, C8) -/

/-- Lookup in a Go `map[string]string`, with the zero value `""` for a
missing key. -/
def mapGet (data : List (String × String)) (k : String) : String :=
  ((data.find? fun p => decide (p.1 = k)).map Prod.snd).getD ""

/-- The HTTP request the APNs client builds for `Client.SendData`:
`apns-push-type: background`, `content-available: 1`, and
`apns-priority` 10 for `cross_device_action` data, 5 otherwise. -/
structure ApnsDataRequest where
  deviceToken : String
  pushType : String
  priority : String
  contentAvailable : Bool
  data : List (String × String)
deriving DecidableEq

/-- `apns.Client.SendData`. -/
def apnsSendData (deviceToken : String) (data : List (String × String)) :
    ApnsDataRequest :=
  { deviceToken := deviceToken, pushType := "background",
    priority := if mapGet data "type" = "cross_device_action" then "10" else "5",
    contentAvailable := true, data := data }

/-- The FCM v1 message `fcm.Client.SendData` builds: data-only with
`AndroidConfig.Priority` always `"high"`. -/
structure FcmMessage where
  token : String
  data : List (String × String)
  androidPriority : String
deriving DecidableEq

/-- `fcm.Client.SendData`. -/
def fcmSendData (token : String) (data : List (String × String)) : FcmMessage :=
  { token := token, data := data, androidPriority := "high" }

/-- Counterexample to claim C8 as stated: on the FCM client a plain
`type = sync` silent push is sent at the same `"high"` Android priority
as a `cross_device_action` push — not at a lower one; FCM's `SendData`
never differentiates. -/
theorem c8_counterexample :
    (fcmSendData "tok" [("type", "sync")]).androidPriority
        = (fcmSendData "tok" [("type", "cross_device_action")]).androidPriority ∧
    (fcmSendData "tok" [("type", "sync")]).androidPriority = "high" := by decide

/-- Claim C8 (amended): the APNs client sends `cross_device_action`
data pushes at `apns-priority` 10 and every other data push at 5; the
FCM client sends every data push at Android priority `"high"`,
with no differentiation. -/
theorem c8_amended (tok : String) (data : List (String × String)) :
    (mapGet data "type" = "cross_device_action" →
      (apnsSendData tok data).priority = "10") ∧
    (mapGet data "type" ≠ "cross_device_action" →
      (apnsSendData tok data).priority = "5") ∧
    (fcmSendData tok data).androidPriority = "high" := by
  refine ⟨?_, ?_, rfl⟩
  · intro h
    unfold apnsSendData
    simp only [if_pos h]
  · intro h
    unfold apnsSendData
    simp only [if_neg h]

/-- Witness for the amended C8 at concrete payloads. -/
theorem c8_amended_witness :
    (apnsSendData "tok" [("type", "cross_device_action")]).priority = "10" ∧
    (apnsSendData "tok" [("type", "sync")]).priority = "5" ∧
    (fcmSendData "tok" [("type", "sync")]).androidPriority = "high" :=
  ⟨(c8_amended "tok" [("type", "cross_device_action")]).1 (by decide),
   (c8_amended "tok" [("type", "sync")]).2.1 (by decide),
   (c8_amended "tok" [("type", "sync")]).2.2⟩


/-! ## ReminderService.Create (C9) -/

/-- `dto.CreateReminderRequest` (the fields `ReminderService.Create`
reads). -/
structure CreateReminderRequest where
  title : String
  notes : Option String
  priority : Option Int
  dueAt : Option Int
  allDay : Option Bool
  recurrenceRule : Option RecurrenceRule
  recurrenceEnd : Option Int
  localId : Option String
deriving DecidableEq

/-- Result of a successful `ReminderService.Create`. -/
structure CreateOut where
  result : Reminder
  db : List Reminder
  log : List SyncEvent
deriving DecidableEq, Inhabited

/-- The `models.Reminder` struct `Create` builds and inserts: request
fields, `status = active`, `lastModifiedBy = deviceID`; the remaining
columns take their GORM defaults (`priority` 2 when the request has
none, `version` 1, `snooze_count` 0) and `BeforeCreate` assigns the
fresh id. -/
def buildReminder (userId : Nat) (req : CreateReminderRequest) (deviceId : Option Nat)
    (freshId : Nat) : Reminder :=
  { id := freshId, userId := userId, listId := none, title := req.title,
    notes := req.notes, priority := req.priority.getD 2, dueAt := req.dueAt,
    allDay := req.allDay, recurrenceRule := req.recurrenceRule,
    recurrenceEnd := req.recurrenceEnd, status := .active, completedAt := none,
    snoozedUntil := none, snoozeCount := 0, isAlarm := false, soundId := none,
    notificationSentAt := none, localId := req.localId, version := 1,
    lastModifiedBy := deviceId, deletedAt := none }

/-- The insert-and-record tail of `ReminderService.Create`. -/
def serviceCreateInsert (userId : Nat) (req : CreateReminderRequest)
    (deviceId : Option Nat) (now : Int) (freshId : Nat)
    (db : List Reminder) (log : List SyncEvent) : Except ServiceErr CreateOut :=
  let reminder := buildReminder userId req deviceId freshId
  .ok { result := reminder, db := db ++ [reminder],
        log := RecordReminderChange userId reminder "create" deviceId now log }

/-- The premium gate of `ReminderService.Create` (advanced recurrence
needs premium), then the insert. -/
def serviceCreateGate (userId : Nat) (req : CreateReminderRequest)
    (deviceId : Option Nat) (users : List User) (now : Int) (freshId : Nat)
    (db : List Reminder) (log : List SyncEvent) : Except ServiceErr CreateOut :=
  match req.recurrenceRule with
  | some _ =>
    (match users.find? (fun u => decide (u.id = userId)) with
     | none => .error .userNotFound
     | some user =>
       if !user.hasActivePremium now && isAdvancedRecurrence req.recurrenceRule then
         .error .premiumRequired
       else serviceCreateInsert userId req deviceId now freshId db log)
  | none => serviceCreateInsert userId req deviceId now freshId db log

/-- `ReminderService.Create`: when the request carries a client
`LocalID` that already names one of the user's reminders, return that
reminder unchanged (idempotent create) — before any premium check,
insert or sync-event append; otherwise gate and insert. -/
def ServiceCreate (userId : Nat) (req : CreateReminderRequest) (deviceId : Option Nat)
    (users : List User) (now : Int) (freshId : Nat)
    (db : List Reminder) (log : List SyncEvent) : Except ServiceErr CreateOut :=
  match req.localId with
  | some lid =>
    (match FindByLocalID userId lid db with
     | some existing => .ok { result := existing, db := db, log := log }
     | none => serviceCreateGate userId req deviceId users now freshId db log)
  | none => serviceCreateGate userId req deviceId users now freshId db log

theorem serviceCreateGate_ok {userId : Nat} {req : CreateReminderRequest}
    {deviceId : Option Nat} {users : List User} {now : Int} {freshId : Nat}
    {db : List Reminder} {log : List SyncEvent} {out : CreateOut}
    (h : serviceCreateGate userId req deviceId users now freshId db log = .ok out) :
    out = { result := buildReminder userId req deviceId freshId,
            db := db ++ [buildReminder userId req deviceId freshId],
            log := RecordReminderChange userId (buildReminder userId req deviceId freshId)
                     "create" deviceId now log } := by
  cases hrr : req.recurrenceRule with
  | none =>
    simp only [serviceCreateGate, hrr, serviceCreateInsert] at h
    exact (Except.ok.inj h).symm
  | some rule =>
    simp only [serviceCreateGate, hrr] at h
    cases hu : users.find? (fun u => decide (u.id = userId)) with
    | none =>
      simp only [hu] at h
      exact absurd h (by simp)
    | some user =>
      simp only [hu] at h
      by_cases hprem : (!user.hasActivePremium now && isAdvancedRecurrence (some rule)) = true
      · rw [if_pos hprem] at h
        exact absurd h (by simp)
      · rw [if_neg hprem] at h
        simp only [serviceCreateInsert] at h
        exact (Except.ok.inj h).symm

theorem find?_append_of_eq_none {a : Type} {p : a → Bool} {l1 l2 : List a}
    (h : l1.find? p = none) : (l1 ++ l2).find? p = l2.find? p := by
  induction l1 with
  | nil => rfl
  | cons x t ih =>
    cases hpx : p x with
    | true =>
      rw [List.find?_cons_of_pos _ hpx] at h
      exact absurd h (by simp)
    | false =>
      rw [List.find?_cons_of_neg _ (by simp [hpx])] at h
      rw [List.cons_append, List.find?_cons_of_neg _ (by simp [hpx])]
      exact ih h

/-- Claim C9: creation is idempotent on the client LocalID.  If the
user has no reminder with local id `lid` and a first `Create` call with
that local id succeeds, then a second call with the same request (under
any device, clock or fresh id) returns the reminder the first call
created, leaves the reminders table untouched and appends no sync
event; and exactly one reminder with that local id exists. -/
theorem c9_create_idempotent (userId : Nat) (req : CreateReminderRequest)
    (deviceId deviceId2 : Option Nat) (users : List User) (now now2 : Int)
    (freshId freshId2 : Nat) (db : List Reminder) (log : List SyncEvent)
    (lid : String) (out : CreateOut)
    (hlid : req.localId = some lid)
    (hnone : FindByLocalID userId lid db = none)
    (h : ServiceCreate userId req deviceId users now freshId db log = .ok out) :
    ServiceCreate userId req deviceId2 users now2 freshId2 out.db out.log
        = .ok { result := out.result, db := out.db, log := out.log } ∧
    (out.db.filter fun r => decide (r.userId = userId) &&
        decide (r.localId = some lid) && decide (r.deletedAt = none)).length = 1 := by
  have hgate : serviceCreateGate userId req deviceId users now freshId db log = .ok out := by
    simp only [ServiceCreate, hlid, hnone] at h
    exact h
  have hout := serviceCreateGate_ok hgate
  have hfound2 : FindByLocalID userId lid out.db
      = some (buildReminder userId req deviceId freshId) := by
    unfold FindByLocalID
    rw [hout]
    show (db ++ [buildReminder userId req deviceId freshId]).find? _ = _
    rw [find?_append_of_eq_none hnone]
    simp [List.find?, buildReminder, hlid]
  constructor
  · simp only [ServiceCreate, hlid, hfound2]
    rw [hout]
  · rw [hout]
    show ((db ++ [buildReminder userId req deviceId freshId]).filter _).length = 1
    rw [List.filter_append]
    have hdbnil : db.filter (fun r => decide (r.userId = userId) &&
        decide (r.localId = some lid) && decide (r.deletedAt = none)) = [] := by
      rw [List.filter_eq_nil_iff]
      intro r hr hpr
      exact absurd (List.find?_eq_none.mp hnone r hr) (by simp [hpr])
    rw [hdbnil, List.nil_append]
    simp [List.filter, buildReminder, hlid]

/-- Concrete create request with a client local id, for the C9 witness. -/
def c9Req : CreateReminderRequest :=
  { title := "buy milk", notes := none, priority := none, dueAt := some 10,
    allDay := none, recurrenceRule := none, recurrenceEnd := none,
    localId := some "loc-1" }

/-- The outcome of the first concrete C9 create call. -/
def c9Out : CreateOut :=
  (ServiceCreate 7 c9Req none [] 0 41 [] []).toOption.getD default

/-- Witness for C9: the duplicate call (different device, clock and
fresh id) is a no-op returning the first call's reminder. -/
theorem c9_create_idempotent_witness :
    ServiceCreate 7 c9Req (some 9) [] 5 42 c9Out.db c9Out.log
        = .ok { result := c9Out.result, db := c9Out.db, log := c9Out.log } ∧
    (c9Out.db.filter fun r => decide (r.userId = 7) &&
        decide (r.localId = some "loc-1") && decide (r.deletedAt = none)).length = 1 :=
  c9_create_idempotent 7 c9Req none (some 9) [] 0 5 41 42 [] [] "loc-1" c9Out
    (by decide) (by decide) (by decide)


/-! ## DeviceService.Register and DeviceRepository.Upsert (C10) -/

/-- `dto.RegisterDeviceRequest`. -/
structure RegisterDeviceRequest where
  platform : String
  pushToken : String
  deviceName : String
  appVersion : String
  osVersion : String
deriving DecidableEq

/-- `DeviceRepository.FindByPushToken`:
`user_id = ? AND push_token = ?` (soft-delete scoped). -/
def FindByPushToken (userId : Nat) (pushToken : String) (db : List Device) :
    Option Device :=
  db.find? fun d => decide (d.userId = userId) && decide (d.pushToken = pushToken) &&
    decide (d.deletedAt = none)

/-- `DeviceRepository.CountByUser`. -/
def CountByUser (userId : Nat) (db : List Device) : Nat :=
  (db.filter fun d => decide (d.userId = userId) && decide (d.deletedAt = none)).length

/-- GORM `Delete` on a `models.Device` row: soft delete by primary key. -/
def softDeleteDevice (id : Nat) (now : Int) (db : List Device) : List Device :=
  db.map fun d => if d.id = id ∧ d.deletedAt = none then { d with deletedAt := some now } else d

/-- `DeviceRepository.Upsert`: unlink the identifier from any other
user, drop a stale same-user row holding the same push token under a
different identifier, then update the matching row or create a new one
(`BeforeCreate` assigns `freshId`).  Returns the registered device (the
service's `device` struct with its `ID` filled in) and the table. -/
def Upsert (dev : Device) (freshId : Nat) (now : Int) (db : List Device) :
    Device × List Device :=
  let db1 :=
    match db.find? (fun d => decide (d.deviceIdentifier = dev.deviceIdentifier) &&
        decide (d.userId ≠ dev.userId) && decide (d.deletedAt = none)) with
    | some other => softDeleteDevice other.id now db
    | none => db
  let db2 :=
    match db1.find? (fun d => decide (d.userId = dev.userId) &&
        decide (d.pushToken = dev.pushToken) &&
        decide (d.deviceIdentifier ≠ dev.deviceIdentifier) &&
        decide (d.deletedAt = none)) with
    | some stale => softDeleteDevice stale.id now db1
    | none => db1
  match db2.find? (fun d => decide (d.userId = dev.userId) &&
      decide (d.deviceIdentifier = dev.deviceIdentifier) &&
      decide (d.deletedAt = none)) with
  | none =>
    ({ dev with id := freshId }, db2 ++ [{ dev with id := freshId }])
  | some existing =>
    ({ dev with id := existing.id },
     db2.map fun d =>
       if d.id = existing.id ∧ d.deletedAt = none then
         { existing with
           pushToken := dev.pushToken
           deviceName := dev.deviceName
           appVersion := dev.appVersion
           osVersion := dev.osVersion
           lastSeenAt := now }
       else d)

/-- The `models.Device` struct `DeviceService.Register` constructs: the
request fields plus `LastSeenAt = now`; `ID` and `DeviceIdentifier`
keep their zero values. -/
def mkDevice (userId : Nat) (req : RegisterDeviceRequest) (now : Int) : Device :=
  { id := 0, userId := userId, platform := req.platform, pushToken := req.pushToken,
    deviceIdentifier := "", deviceName := req.deviceName,
    appVersion := req.appVersion, osVersion := req.osVersion,
    lastSeenAt := now, deletedAt := none }

/-- `DeviceService.Register`: validate the push token, load the user,
and for a non-premium user already at 2 devices refuse with a
premium-required error unless the push token already belongs to one of
the user's devices (the update case); otherwise upsert. -/
def ServiceRegister (userId : Nat) (req : RegisterDeviceRequest) (users : List User)
    (now : Int) (freshId : Nat) (db : List Device) :
    Except ServiceErr (Device × List Device) :=
  if req.pushToken = "" then .error .validation
  else
    match users.find? (fun u => decide (u.id = userId)) with
    | none => .error .userNotFound
    | some user =>
      if !user.hasActivePremium now && decide (2 ≤ CountByUser userId db) then
        match FindByPushToken userId req.pushToken db with
        | none => .error .premiumRequired
        | some _ => .ok (Upsert (mkDevice userId req now) freshId now db)
      else .ok (Upsert (mkDevice userId req now) freshId now db)

/-- Claim C10: a non-premium user at the 2-device limit registering a
push token that matches none of their devices gets the
premium-required error (and nothing is registered — the error carries
no table change); if the token already belongs to one of their
devices, the call proceeds to the upsert despite the limit. -/
theorem c10_device_limit (userId : Nat) (req : RegisterDeviceRequest)
    (users : List User) (user : User) (now : Int) (freshId : Nat) (db : List Device)
    (htok : ¬ req.pushToken = "")
    (huser : users.find? (fun u => decide (u.id = userId)) = some user)
    (hprem : user.hasActivePremium now = false)
    (hcount : 2 ≤ CountByUser userId db) :
    (FindByPushToken userId req.pushToken db = none →
      ServiceRegister userId req users now freshId db = .error .premiumRequired) ∧
    (∀ d, FindByPushToken userId req.pushToken db = some d →
      ServiceRegister userId req users now freshId db
        = .ok (Upsert (mkDevice userId req now) freshId now db)) := by
  have hlim : (!user.hasActivePremium now && decide (2 ≤ CountByUser userId db)) = true := by
    rw [hprem]
    simp [hcount]
  constructor
  · intro hfind
    simp only [ServiceRegister, if_neg htok, huser, if_pos hlim, hfind]
  · intro d hfind
    simp only [ServiceRegister, if_neg htok, huser, if_pos hlim, hfind]

/-- Non-premium user for the C10 witness. -/
def c10User : User := { id := 7, isPremium := false, premiumUntil := none }

/-- First of the two registered devices at the limit. -/
def c10D1 : Device :=
  { id := 1, userId := 7, platform := "ios", pushToken := "t1",
    deviceIdentifier := "d1", deviceName := "a", appVersion := "1",
    osVersion := "17", lastSeenAt := 0, deletedAt := none }

/-- Second of the two registered devices at the limit. -/
def c10D2 : Device :=
  { id := 2, userId := 7, platform := "android", pushToken := "t2",
    deviceIdentifier := "d2", deviceName := "b", appVersion := "1",
    osVersion := "14", lastSeenAt := 0, deletedAt := none }

/-- Registration request with a token unknown to the user. -/
def c10ReqNew : RegisterDeviceRequest :=
  { platform := "ios", pushToken := "t3", deviceName := "c",
    appVersion := "1", osVersion := "17" }

/-- Registration request re-using device 2's token (the update case). -/
def c10ReqExisting : RegisterDeviceRequest :=
  { platform := "android", pushToken := "t2", deviceName := "b",
    appVersion := "2", osVersion := "14" }

/-- Witness for C10 at a concrete free user with two devices. -/
theorem c10_device_limit_witness :
    ServiceRegister 7 c10ReqNew [c10User] 0 99 [c10D1, c10D2]
        = .error .premiumRequired ∧
    ServiceRegister 7 c10ReqExisting [c10User] 0 99 [c10D1, c10D2]
        = .ok (Upsert (mkDevice 7 c10ReqExisting 0) 99 0 [c10D1, c10D2]) :=
  ⟨(c10_device_limit 7 c10ReqNew [c10User] c10User 0 99 [c10D1, c10D2]
      (by decide) (by decide) (by decide) (by decide)).1 (by decide),
   (c10_device_limit 7 c10ReqExisting [c10User] c10User 0 99 [c10D1, c10D2]
      (by decide) (by decide) (by decide) (by decide)).2 c10D2 (by decide)⟩

end RemindMe
